import Mathlib

/-!
Verification of the SafeWaters GPS risk monitor
(`src/gps_energy_monitoring.py`).

The program fetches the latest planetary Kp index and NOAA alert messages,
classifies the Kp value into one of six risk labels, fans that single
classification out over a static catalog of fishing regions, and filters the
resulting table by a selected city and a search query.

Kp values arrive as floats but every comparison in the source is an exact
order comparison against small integers, so we embed them as rationals (`ℚ`);
network results are embedded as explicit `Except`/`List` inputs to the
fetch logic.
-/

namespace SafeWaters

/-! ## Risk labels (the literal strings returned by the source) -/

def safeLabel : String := "🟢 Safe"
def cautionLabel : String := "🟡 Caution (G1 Minor Storm)"
def moderateLabel : String := "🟠 High Risk (G2 Moderate Storm)"
def strongLabel : String := "🔴 High Risk (G3 Strong Storm)"
def severeLabel : String := "⛔ Severe Risk (G4 Severe Storm)"
def extremeLabel : String := "🚨 Extreme Risk (G5 Extreme Storm)"

/-- The risk classifier `gps_risk_from_gscale` of the source, lines 87-99:
an if/elif ladder on the Kp value, first match wins, with an `else`
fallback returning the G5 label. -/
def gps_risk_from_gscale (kp : ℚ) : String :=
  if kp ≤ 4 then safeLabel
  else if kp = 5 then cautionLabel
  else if kp = 6 then moderateLabel
  else if kp = 7 then strongLabel
  else if kp = 8 then severeLabel
  else extremeLabel

/-- Severity rank of a risk label, following the order
Safe < Caution < ModerateStorm < StrongStorm < SevereStorm < ExtremeStorm. -/
def severity (s : String) : ℕ :=
  if s = safeLabel then 0
  else if s = cautionLabel then 1
  else if s = moderateLabel then 2
  else if s = strongLabel then 3
  else if s = severeLabel then 4
  else 5

/-! ## Color map (source lines 135-142).  A Python dict lookup
`color_map[risk]` raises `KeyError` on a missing key, so the embedding
returns an `Option`. -/

def color_map (s : String) : Option (List ℕ) :=
  if s = safeLabel then some [0, 180, 0]
  else if s = cautionLabel then some [255, 200, 0]
  else if s = moderateLabel then some [255, 140, 0]
  else if s = strongLabel then some [220, 80, 0]
  else if s = severeLabel then some [200, 0, 0]
  else if s = extremeLabel then some [120, 0, 0]
  else none

/-! ## Substring containment.  Python's `"WATA" in msg` and pandas'
`str.contains(query, case=False)` (for a plain, metacharacter-free query)
test substring containment; we embed it as an executable check over
character lists. -/

/-- Test `listHasPref pat s`: `pat` occurs at the very start of `s`. -/
def listHasPref : List Char → List Char → Bool
  | [], _ => true
  | _ :: _, [] => false
  | a :: as, b :: bs => a = b && listHasPref as bs

/-- Test `listHasSub pat s`: `pat` occurs contiguously somewhere in `s`. -/
def listHasSub (pat : List Char) : List Char → Bool
  | [] => pat.isEmpty
  | b :: bs => listHasPref pat (b :: bs) || listHasSub pat bs

/-- Test `strHasSub s pat`: `pat` is a substring of `s` (Python `pat in s`). -/
def strHasSub (s pat : String) : Bool :=
  listHasSub pat.toList s.toList

/-- Case-insensitive substring containment, as pandas
`str.contains(query, case=False)` performs for a plain query. -/
def strHasSubCI (s pat : String) : Bool :=
  strHasSub s.toLower pat.toLower

/-! ## Region catalog (source lines 104-130): name ↦ (latitude, longitude). -/

def regions : List (String × ℚ × ℚ) := [
  ("Mombasa (Indian Ocean)", -4.0435, 39.6682),
  ("Malindi (Indian Ocean)", -3.2174, 40.1169),
  ("Lamu (Indian Ocean)", -2.2717, 40.9020),
  ("Kilifi (Indian Ocean)", -3.6308, 39.8496),
  ("Watamu (Indian Ocean)", -3.3520, 40.0284),
  ("Kisumu (Lake Victoria)", -0.0917, 34.7680),
  ("Homa Bay (Lake Victoria)", -0.5273, 34.4571),
  ("Mbita Point (Lake Victoria)", -0.4210, 34.2034),
  ("Bondo (Lake Victoria)", -0.1066, 34.2502),
  ("Kalokol (Lake Turkana)", 3.4871, 35.8721),
  ("Lodwar (Lake Turkana)", 3.1155, 35.6007),
  ("Naivasha (Lake Naivasha)", -0.7167, 36.4333),
  ("Marigat (Lake Baringo)", 0.4667, 36.1000),
  ("Kochi (Arabian Sea)", 9.9312, 76.2673),
  ("Mangalore (Arabian Sea)", 12.9141, 74.8560),
  ("Veraval (Arabian Sea)", 20.9077, 70.3679),
  ("Mumbai (Arabian Sea)", 19.0760, 72.8777),
  ("Kakinada (Bay of Bengal)", 16.9891, 82.2475),
  ("Chennai (Bay of Bengal)", 13.0827, 80.2707),
  ("Visakhapatnam (Bay of Bengal)", 17.6868, 83.2185),
  ("Puri (Bay of Bengal)", 19.8135, 85.8312),
  ("Paradip (Bay of Bengal)", 20.3167, 86.6167),
  ("Tuticorin (Bay of Bengal)", 8.7642, 78.1348),
  ("Kollam (Arabian Sea)", 8.8932, 76.6141),
  ("Nagapattinam (Bay of Bengal)", 10.7630, 79.8449)]

/-- One row of `risk_df` (source lines 144-150): the dict
`{"City": city, "Latitude": lat, "Longitude": lon, "Risk": risk, "Color": color}`.
The color field is the `Option`-valued dict lookup `color_map[risk]`. -/
structure RiskRow where
  city : String
  latitude : ℚ
  longitude : ℚ
  risk : String
  color : Option (List ℕ)
deriving Repr, DecidableEq

/-- The loop of source lines 145-150 building one row per region, each row
classified from the single global Kp value. -/
def build_risk_data (kp : ℚ) : List RiskRow :=
  regions.map (fun r =>
    { city := r.1, latitude := r.2.1, longitude := r.2.2,
      risk := gps_risk_from_gscale kp,
      color := color_map (gps_risk_from_gscale kp) })

/-! ## Table filtering (source lines 173-177).  The selection is applied
first when the selected city is not the sentinel `"All"`; then the search
restriction is applied when the query string is non-empty (Python string
truthiness). -/

def filtered_df (rows : List RiskRow) (city_filter search_query : String) :
    List RiskRow :=
  let r1 := if city_filter ≠ "All"
    then rows.filter (fun r => r.city == city_filter) else rows
  if search_query ≠ ""
    then r1.filter (fun r => strHasSubCI r.city search_query) else r1

/-- The same two restrictions applied in the opposite order: search first,
then selection.  Used to state that the two filters commute. -/
def filtered_df_swapped (rows : List RiskRow) (city_filter search_query : String) :
    List RiskRow :=
  let r1 := if search_query ≠ ""
    then rows.filter (fun r => strHasSubCI r.city search_query) else rows
  if city_filter ≠ "All"
    then r1.filter (fun r => r.city == city_filter) else r1

/-- A small sample table used to instantiate the filter theorems. -/
def sampleRows : List RiskRow := [
  { city := "Homa Bay (Lake Victoria)", latitude := 0, longitude := 0,
    risk := safeLabel, color := color_map safeLabel },
  { city := "Mombasa (Indian Ocean)", latitude := 0, longitude := 0,
    risk := safeLabel, color := color_map safeLabel },
  { city := "Chennai (Bay of Bengal)", latitude := 0, longitude := 0,
    risk := safeLabel, color := color_map safeLabel }]

/-! ## Fetch logic (source lines 43-54).  Network effects are embedded as
explicit inputs: the measurement endpoint yields either an error (network
failure or JSON shape mismatch in `pd.read_json`/column access) or a list of
records, and the alerts endpoint yields either an error or a list of alert
messages.  Each alert is the optional `"message"` field of one JSON object,
read in the source as `a.get("message", "")`. -/

/-- One record of the Kp time series: the `kp_index` and `time_tag` columns
used by `fetch_data`. -/
structure KpRecord where
  kp_index : ℚ
  time_tag : String
deriving Repr, DecidableEq

/-- The fetch operation `fetch_data` (source lines 43-54): takes the last record of the series
(`df.tail(1).iloc[0]`, which raises an `IndexError` on an empty series —
embedded as `Except.error`), and wraps only the alerts fetch in
`try/except`, substituting `[]` on any alerts failure. -/
def fetch_data (kpFetch : Except String (List KpRecord))
    (alertsFetch : Except String (List (Option String))) :
    Except String (ℚ × String × List (Option String)) :=
  match kpFetch with
  | Except.error e => Except.error e
  | Except.ok df =>
    match df.getLast? with
    | none => Except.error "single positional indexer is out-of-bounds"
    | some latest =>
      let alerts_data := match alertsFetch with
        | Except.error _ => []
        | Except.ok a => a
      Except.ok (latest.kp_index, latest.time_tag, alerts_data)

/-- The active-alerts filter (source lines 79-82): keep the alerts whose
message text contains `"WATA"` or `"ALTK"`. -/
def active_alerts (alerts_data : List (Option String)) : List (Option String) :=
  alerts_data.filter (fun a =>
    strHasSub (a.getD "") "WATA" || strHasSub (a.getD "") "ALTK")

/-- Auxiliary: `all` over a mapped list tests the composed predicate. -/
theorem all_map_comp {α β : Type} (p : α → Bool) (f : β → α) (m : List β) :
    (m.map f).all p = m.all (fun b => p (f b)) := by
  induction m with
  | nil => rfl
  | cons b bs ih => simp [ih]

/-- Auxiliary: two `filter` passes over the same list commute. -/
theorem filter_comm_aux {α : Type} (p q : α → Bool) (l : List α) :
    (l.filter p).filter q = (l.filter q).filter p := by
  simp only [List.filter_filter]
  simp [Bool.and_comm]

/-- Auxiliary: every element of a filtered list satisfies the filter. -/
theorem all_filter_self {α : Type} (p : α → Bool) (l : List α) :
    (l.filter p).all p = true := by
  rw [List.all_eq_true]
  intro x hx
  exact List.of_mem_filter hx

/-- Auxiliary: filtering a list by equality of a key keeps exactly one
element when the keys are distinct and the sought key occurs. -/
theorem filter_key_unique {α : Type} (key : α → String) :
    ∀ (l : List α) (sel : String), (l.map key).Nodup → sel ∈ l.map key →
      (l.filter (fun x => key x == sel)).length = 1 := by
  intro l
  induction l with
  | nil => intro sel _ hmem; simp at hmem
  | cons a t ih =>
    intro sel hnd hmem
    simp only [List.map_cons, List.nodup_cons] at hnd
    obtain ⟨hka, hndt⟩ := hnd
    by_cases hk : key a = sel
    · rw [List.filter_cons_of_pos (by simp [hk])]
      have ht : t.filter (fun x => key x == sel) = [] := by
        rw [List.filter_eq_nil_iff]
        intro x hx hbe
        have h1 : key x = sel := eq_of_beq hbe
        apply hka
        rw [hk, ← h1]
        exact List.mem_map_of_mem key hx
      rw [ht]
      rfl
    · rw [List.filter_cons_of_neg (by simp [hk])]
      rcases List.mem_cons.mp hmem with he | hm
      · exact absurd he.symm hk
      · exact ih sel hndt hm

/-- On integer inputs the classifier's rational comparisons coincide with
the corresponding integer comparisons. -/
theorem gps_risk_intCast (n : ℤ) :
    gps_risk_from_gscale (n : ℚ) =
      if n ≤ 4 then safeLabel
      else if n = 5 then cautionLabel
      else if n = 6 then moderateLabel
      else if n = 7 then strongLabel
      else if n = 8 then severeLabel
      else extremeLabel := by
  unfold gps_risk_from_gscale
  have h4 : ((n : ℚ) ≤ 4) ↔ (n ≤ 4) := by exact_mod_cast Iff.rfl
  have h5 : ((n : ℚ) = 5) ↔ (n = 5) := by exact_mod_cast Iff.rfl
  have h6 : ((n : ℚ) = 6) ↔ (n = 6) := by exact_mod_cast Iff.rfl
  have h7 : ((n : ℚ) = 7) ↔ (n = 7) := by exact_mod_cast Iff.rfl
  have h8 : ((n : ℚ) = 8) ↔ (n = 8) := by exact_mod_cast Iff.rfl
  simp only [h4, h5, h6, h7, h8]

end SafeWaters

namespace SafeWaters

/-! ## Claim theorems (first batch) -/

/-- C1: every Kp strictly above 4 that is none of 5, 6, 7, 8 falls through
to the `else` branch and is classified as the G5 Extreme label. -/
theorem c1_fractional_kp_extreme (kp : ℚ) (h4 : 4 < kp)
    (h5 : kp ≠ 5) (h6 : kp ≠ 6) (h7 : kp ≠ 7) (h8 : kp ≠ 8) :
    gps_risk_from_gscale kp = extremeLabel := by
  unfold gps_risk_from_gscale
  rw [if_neg (not_le.mpr h4), if_neg h5, if_neg h6, if_neg h7, if_neg h8]

/-- C1 witness: kp = 5.33 satisfies the hypotheses and is classified
as the Extreme label. -/
theorem c1_fractional_kp_extreme_witness :
    gps_risk_from_gscale (533/100) = extremeLabel :=
  c1_fractional_kp_extreme (533/100) (by norm_num) (by norm_num)
    (by norm_num) (by norm_num) (by norm_num)

/-- C9: the literal classifier cases of the spec:
3.9 ↦ Safe, 5 ↦ Caution (G1), 6 ↦ ModerateStorm (G2),
8 ↦ SevereStorm (G4), 9 ↦ ExtremeStorm (G5), 12 ↦ ExtremeStorm (G5). -/
theorem c9_literal_cases :
    gps_risk_from_gscale (39/10) = safeLabel ∧
    gps_risk_from_gscale 5 = cautionLabel ∧
    gps_risk_from_gscale 6 = moderateLabel ∧
    gps_risk_from_gscale 8 = severeLabel ∧
    gps_risk_from_gscale 9 = extremeLabel ∧
    gps_risk_from_gscale 12 = extremeLabel := by
  refine ⟨?_, ?_, ?_, ?_, ?_, ?_⟩ <;> · unfold gps_risk_from_gscale; norm_num

/-- C2 counterexample: severity is NOT monotonically non-decreasing in kp:
4.5 ≤ 5 but the classifier sends 4.5 to the Extreme label (severity 5) and
5 to the Caution label (severity 1). -/
theorem c2_monotone_counterexample :
    (9/2 : ℚ) ≤ 5 ∧
    ¬ severity (gps_risk_from_gscale (9/2)) ≤ severity (gps_risk_from_gscale 5) := by
  have ha : gps_risk_from_gscale (9/2) = extremeLabel := by
    unfold gps_risk_from_gscale; norm_num
  have hb : gps_risk_from_gscale 5 = cautionLabel := by
    unfold gps_risk_from_gscale; norm_num
  refine ⟨by norm_num, ?_⟩
  rw [ha, hb]
  decide

/-- C2 amended: the classifier is total and deterministic — every kp is sent
to exactly one of the six labels — and severity is monotonically
non-decreasing when kp ranges over the integers (the fallback `else` branch
breaks monotonicity for fractional kp between 4 and 9). -/
theorem c2_total_and_int_monotone :
    (∀ kp : ℚ,
      gps_risk_from_gscale kp = safeLabel ∨
      gps_risk_from_gscale kp = cautionLabel ∨
      gps_risk_from_gscale kp = moderateLabel ∨
      gps_risk_from_gscale kp = strongLabel ∨
      gps_risk_from_gscale kp = severeLabel ∨
      gps_risk_from_gscale kp = extremeLabel) ∧
    (∀ n1 n2 : ℤ, n1 ≤ n2 →
      severity (gps_risk_from_gscale (n1 : ℚ)) ≤
        severity (gps_risk_from_gscale (n2 : ℚ))) := by
  constructor
  · intro kp
    unfold gps_risk_from_gscale
    split_ifs <;> tauto
  · intro n1 n2 h
    rw [gps_risk_intCast, gps_risk_intCast]
    split_ifs <;> first | decide | (exfalso; omega)

/-- C2 amended witness: the monotonicity part at the concrete integer pair
5 ≤ 9. -/
theorem c2_total_and_int_monotone_witness :
    severity (gps_risk_from_gscale ((5 : ℤ) : ℚ)) ≤
      severity (gps_risk_from_gscale ((9 : ℤ) : ℚ)) :=
  c2_total_and_int_monotone.2 5 9 (by decide)

/-- C3: the risk table has exactly one row per catalog region, in order,
carrying that region's name and coordinates, and every row's risk equals
the classification of the single current Kp value. -/
theorem c3_one_row_per_region (kp : ℚ) :
    (build_risk_data kp).length = regions.length ∧
    (build_risk_data kp).map (fun row => (row.city, row.latitude, row.longitude))
      = regions.map (fun r => (r.1, r.2.1, r.2.2)) ∧
    (build_risk_data kp).all
      (fun row => row.risk == gps_risk_from_gscale kp) = true := by
  refine ⟨?_, ?_, ?_⟩
  · simp [build_risk_data]
  · rfl
  · rw [build_risk_data, all_map_comp]
    simp

/-- C7: with no specific selection, a non-empty search query keeps exactly
the rows whose city name contains the query case-insensitively; and for any
selection and query, applying selection before search (as the source does)
gives the same rows as applying search before selection. -/
theorem c7_search_filter_commutes (rows : List RiskRow) (sel s : String)
    (hs : s ≠ "") :
    filtered_df rows "All" s = rows.filter (fun r => strHasSubCI r.city s) ∧
    filtered_df rows sel s = filtered_df_swapped rows sel s := by
  constructor
  · unfold filtered_df
    simp [hs]
  · unfold filtered_df filtered_df_swapped
    by_cases hc : sel = "All"
    · simp [hc]
    · simp only [hc, hs, ne_eq, not_false_iff, if_true, ite_not, if_false]
      rw [filter_comm_aux]

/-- C7 witness: the search "bay" on a three-row sample table, alone and
composed with a selection in either order. -/
theorem c7_search_filter_commutes_witness :
    filtered_df sampleRows "All" "bay"
      = sampleRows.filter (fun r => strHasSubCI r.city "bay") ∧
    filtered_df sampleRows "Mombasa (Indian Ocean)" "bay"
      = filtered_df_swapped sampleRows "Mombasa (Indian Ocean)" "bay" :=
  c7_search_filter_commutes sampleRows "Mombasa (Indian Ocean)" "bay" (by decide)

/-- C8: selecting a region name that occurs in the catalog, with no search
query, keeps exactly one row, and that row's city equals the selection. -/
theorem c8_selection_unique_row (kp : ℚ) (sel : String)
    (hmem : sel ∈ regions.map (fun r => r.1)) :
    (filtered_df (build_risk_data kp) sel "").length = 1 ∧
    (filtered_df (build_risk_data kp) sel "").all
      (fun row => row.city == sel) = true := by
  have hall : sel ≠ "All" := by
    intro e
    rw [e] at hmem
    revert hmem
    decide
  have hmap : (build_risk_data kp).map (fun row => row.city)
      = regions.map (fun r => r.1) := rfl
  have heq : filtered_df (build_risk_data kp) sel ""
      = (build_risk_data kp).filter (fun r => r.city == sel) := by
    unfold filtered_df
    simp [hall]
  rw [heq]
  constructor
  · refine filter_key_unique (fun row => row.city) (build_risk_data kp) sel ?_ ?_
    · rw [hmap]
      decide
    · rw [hmap]
      exact hmem
  · exact all_filter_self _ _

/-- C8 witness: selecting Mombasa at Kp = 6 keeps exactly its row. -/
theorem c8_selection_unique_row_witness :
    (filtered_df (build_risk_data 6) "Mombasa (Indian Ocean)" "").length = 1 ∧
    (filtered_df (build_risk_data 6) "Mombasa (Indian Ocean)" "").all
      (fun row => row.city == "Mombasa (Indian Ocean)") = true :=
  c8_selection_unique_row 6 "Mombasa (Indian Ocean)" (by decide)

/-- C4: when the measurement fetch fails (network error or malformed JSON)
or the time series is empty, `fetch_data` returns a hard failure, never a
fabricated Kp value, regardless of the alerts outcome. -/
theorem c4_measurement_failure_propagates :
    (∀ (e : String) (alerts : Except String (List (Option String))),
      fetch_data (Except.error e) alerts = Except.error e) ∧
    (∀ alerts : Except String (List (Option String)),
      fetch_data (Except.ok []) alerts
        = Except.error "single positional indexer is out-of-bounds") :=
  ⟨fun _ _ => rfl, fun _ => rfl⟩

/-- C5: when the alerts fetch fails for any reason, `fetch_data` still
succeeds with the measurement and an empty alert list. -/
theorem c5_alerts_failure_recovered (df : List KpRecord) (latest : KpRecord)
    (e : String) (h : df.getLast? = some latest) :
    fetch_data (Except.ok df) (Except.error e)
      = Except.ok (latest.kp_index, latest.time_tag, []) := by
  simp only [fetch_data, h]

/-- C5 witness: a one-record series with a failing alerts fetch yields the
record's measurement and no alerts. -/
theorem c5_alerts_failure_recovered_witness :
    fetch_data (Except.ok [⟨7, "2024-05-10T12:00:00"⟩])
        (Except.error "network down")
      = Except.ok (7, "2024-05-10T12:00:00", []) :=
  c5_alerts_failure_recovered [⟨7, "2024-05-10T12:00:00"⟩]
    ⟨7, "2024-05-10T12:00:00"⟩ "network down" rfl

/-- C6: on the messages "WATA123: warning", "Routine report",
"ALTK99 notice", the active-alerts filter keeps exactly the first and the
third. -/
theorem c6_alerts_filter_example :
    active_alerts
        [some "WATA123: warning", some "Routine report", some "ALTK99 notice"]
      = [some "WATA123: warning", some "ALTK99 notice"] := by
  decide

/-- C10: for every Kp value the classifier returns one of the six keys of
`color_map`, so the color lookup made while building the risk table never
fails. -/
theorem c10_color_lookup_total (kp : ℚ) :
    (color_map (gps_risk_from_gscale kp)).isSome = true := by
  unfold gps_risk_from_gscale
  split_ifs <;> decide

end SafeWaters
